import Mathlib

/-
Shallow embedding of the Disaster-Adaptive Last-Mile Logistics Simulator
(Parallelized-Monte-Carlo-Simulation-V2).  The Python sources embedded here
are Simulation/SimulationWorker.py, Simulation/MonteCarlo.py and
monte_carlo_organized.py.

Modelling conventions:
  * Python floats are modelled as rationals (ℚ); `float('inf')` is modelled
    by `none` in `EWeight := Option ℚ`.  All edge lengths in the data
    contract are positive reals, so the float NaN corner (0 * inf) cannot
    arise on the inputs considered here.
  * `random.random()` draws are supplied by an explicit oracle
    `ℕ → ℚ × ℚ` giving, for the edge at position i of the edge list, the
    flood draw and the landslide draw consumed in source order.
  * The networkx DiGraph is a node list plus a list of directed edges, at
    most one per ordered pair on the graphs considered.
  * `nx.shortest_path(..., weight='adjusted_weight')` (Dijkstra) is
    modelled as: enumerate all simple source→target paths and pick one of
    minimal total adjusted weight (first minimal in enumeration order).
    Dijkstra treats an infinite edge weight as an ordinary (absorbing)
    number, never as an absent edge: a target reachable only through
    infinite-weight edges still gets a returned path.  The model mirrors
    that: an all-infinite candidate set still selects a path.
  * Python dict results of simulate_delivery are association lists
    `List (String × PyVal)`; a key absent from the dict is a key absent
    from the list.
-/

/-- Per-edge attribute record: static `length`, `flood_prone`,
`landslide_prone` plus the two transient disaster flags. -/
structure EdgeData where
  length : ℚ
  flood_prone : ℚ
  landslide_prone : ℚ
  currently_flooded : Bool
  currently_landslide : Bool
deriving DecidableEq, Repr

/-- A directed edge (u → v) with its attribute dictionary. -/
structure Edge where
  u : ℕ
  v : ℕ
  data : EdgeData
deriving DecidableEq, Repr

/-- A networkx DiGraph: node list and directed edge list. -/
structure Graph where
  nodes : List ℕ
  edges : List Edge
deriving DecidableEq, Repr

/-- First edge u → v of the graph, if any (`G.edges[u, v]` / `has_edge`). -/
def Graph.find_edge (G : Graph) (u v : ℕ) : Option Edge :=
  G.edges.find? (fun e => (e.u == u) && (e.v == v))

/-- Successors of u (targets of the out-edges of u). -/
def Graph.succ (G : Graph) (u : ℕ) : List ℕ :=
  (G.edges.filter (fun e => e.u == u)).map (fun e => e.v)

/-- The `{flood_activation, landslide_activation, speed_multiplier}` row of
the `rain_effects` dictionary. -/
structure RainParams where
  flood_activation : ℚ
  landslide_activation : ℚ
  speed_multiplier : ℚ
deriving DecidableEq, Repr

/-- `rain_intensity_effects` (SimulationWorker.py lines 8-17): fixed table
for levels 1..5; `dict.get` falls back to the level-1 row for any other
intensity. -/
def rain_intensity_effects (rain_intensity : ℤ) : RainParams :=
  if rain_intensity = 1 then ⟨1/10, 0, 1⟩
  else if rain_intensity = 2 then ⟨3/10, 1/20, 4/5⟩
  else if rain_intensity = 3 then ⟨3/5, 3/20, 3/5⟩
  else if rain_intensity = 4 then ⟨9/10, 3/10, 2/5⟩
  else if rain_intensity = 5 then ⟨1, 1, 0⟩
  else ⟨1/10, 0, 1⟩

/-- Shorthand for the speed multiplier of a rain level. -/
def rain_speed (rain_intensity : ℤ) : ℚ :=
  (rain_intensity_effects rain_intensity).speed_multiplier

/-- Extended weight: `some q` is a finite float, `none` is `float('inf')`. -/
abbrev EWeight := Option ℚ

/-- Addition on extended weights (inf is absorbing, as for floats). -/
def ewAdd : EWeight → EWeight → EWeight
  | some a, some b => some (a + b)
  | _, _ => none

/-- Strict comparison on extended weights (`inf < inf` is false). -/
def ewLt : EWeight → EWeight → Bool
  | some a, some b => decide (a < b)
  | some _, none => true
  | none, _ => false

/-- The `adjusted_weight` computed per edge in
`find_danger_aware_shortest_path` (SimulationWorker.py lines 263-287):
penalty 1, ×5 when flooded (or inf at rain ≥ 5), ×10 when landslide
(or inf at rain ≥ 4), divided by `max(0.1, speed_multiplier)`, then
multiplied by the edge length. -/
def adjusted_weight (d : EdgeData) (rain_intensity : ℤ) : EWeight :=
  if (d.currently_flooded && decide (5 ≤ rain_intensity))
      || (d.currently_landslide && decide (4 ≤ rain_intensity)) then
    none
  else
    some (d.length *
      ((if d.currently_flooded then (5 : ℚ) else 1) *
        (if d.currently_landslide then (10 : ℚ) else 1) /
        max (1/10) (rain_speed rain_intensity)))

/-- All simple paths current→target using at most `fuel` extension steps;
a path stops the moment it reaches the target. -/
def simplePathsAux (G : Graph) : ℕ → ℕ → ℕ → List ℕ → List (List ℕ)
  | 0, _, _, _ => []
  | fuel+1, current, target, visited =>
    if current = target then [[current]]
    else
      ((G.succ current).filter (fun w => !(visited.contains w))).flatMap
        (fun w => (simplePathsAux G fuel w target (current :: visited)).map
          (fun p => current :: p))

/-- All simple source→target paths of the graph (fuel `|nodes|` bounds the
number of distinct nodes on any simple path). -/
def simplePaths (G : Graph) (source target : ℕ) : List (List ℕ) :=
  simplePathsAux G G.nodes.length source target []

/-- Total adjusted weight of a node path (inf if an edge is missing or has
infinite adjusted weight). -/
def path_adjusted_weight (G : Graph) (rain_intensity : ℤ) : List ℕ → EWeight
  | [] => some 0
  | [_] => some 0
  | a :: b :: rest =>
    match G.find_edge a b with
    | none => none
    | some e => ewAdd (adjusted_weight e.data rain_intensity)
        (path_adjusted_weight G rain_intensity (b :: rest))

/-- The original-length accumulation loop of
`find_danger_aware_shortest_path` (lines 298-308): sum the stored `length`
along the path, or fail (`(None, inf)`) if a consecutive edge is missing.
Every modelled edge carries `length`, so the `+= 1` fallback of the source
for an edge lacking the weight attribute cannot trigger. -/
def path_orig_length (G : Graph) : List ℕ → Option ℚ
  | [] => some 0
  | [_] => some 0
  | a :: b :: rest =>
    match G.find_edge a b with
    | none => none
    | some e => (path_orig_length G (b :: rest)).map (fun L => e.data.length + L)

/-- The Dijkstra call `nx.shortest_path(..., weight='adjusted_weight')`:
pick a candidate path of minimal total adjusted weight (the first minimal
one in enumeration order stands in for Dijkstra's unspecified tie-break). -/
def selectBest (G : Graph) (rain_intensity : ℤ) (cands : List (List ℕ)) :
    Option (List ℕ) :=
  cands.foldl (fun acc p =>
    match acc with
    | none => some p
    | some q =>
      if ewLt (path_adjusted_weight G rain_intensity p)
          (path_adjusted_weight G rain_intensity q) then some p else some q)
    none

/-- `find_danger_aware_shortest_path` (SimulationWorker.py lines 243-312).
Returns `(path, original-length sum)` or `(none, inf)` when an endpoint is
absent, no path exists (NetworkXNoPath), or a path edge is missing. -/
def find_danger_aware_shortest_path (G : Graph) (source_id target_id : ℕ)
    (rain_intensity : ℤ) : Option (List ℕ) × EWeight :=
  if source_id ∈ G.nodes ∧ target_id ∈ G.nodes then
    match selectBest G rain_intensity (simplePaths G source_id target_id) with
    | none => (none, none)
    | some path =>
      match path_orig_length G path with
      | none => (none, none)
      | some path_length => (some path, some path_length)
  else (none, none)

/-- The inner `for node in unvisited` loop of `find_disaster_aware_route`
(lines 219-224): nearest unvisited delivery node by returned length,
strict `<`, first winner kept on ties (the Python set iteration order is
taken to be list order here; the claims below use at most one node). -/
def selectNearest (G : Graph) (rain_intensity : ℤ) (current : ℕ)
    (unvisited : List ℕ) : Option (ℕ × List ℕ × ℚ) :=
  unvisited.foldl (fun acc node =>
    match find_danger_aware_shortest_path G current node rain_intensity with
    | (some path, some dist) =>
      match acc with
      | none => some (node, path, dist)
      | some best => if dist < best.2.2 then some (node, path, dist) else acc
    | _ => acc) none

/-- The `while unvisited` loop of `find_disaster_aware_route`
(lines 214-239), fuel = number of unvisited nodes (each pass removes the
chosen node, so the fuel bound is exact). -/
def routeLoop (G : Graph) (rain_intensity : ℤ) :
    ℕ → ℕ → List ℕ → List ℕ → List ℕ → ℚ → Option (List ℕ × ℚ × List ℕ)
  | _, _, [], route, path_sequence, total_distance =>
    some (route, total_distance, path_sequence)
  | 0, _, _ :: _, _, _, _ => none
  | fuel+1, current, unvisited, route, path_sequence, total_distance =>
    match selectNearest G rain_intensity current unvisited with
    | none => none
    | some (next, path, dist) =>
      routeLoop G rain_intensity fuel next (unvisited.erase next)
        (route ++ [next]) (path_sequence ++ path.tail) (total_distance + dist)

/-- `find_disaster_aware_route` (lines 206-239): nearest-neighbour route
construction; `none` models the Python `(None, 0, None)` failure return. -/
def find_disaster_aware_route (G : Graph) (start_node : ℕ)
    (delivery_nodes : List ℕ) (rain_intensity : ℤ) :
    Option (List ℕ × ℚ × List ℕ) :=
  routeLoop G rain_intensity delivery_nodes.length start_node delivery_nodes
    [start_node] [start_node] 0

/-- `is_edge_blocked` (lines 194-202). -/
def is_edge_blocked (d : EdgeData) (rain_intensity : ℤ) : Bool :=
  (d.currently_flooded && decide (5 ≤ rain_intensity))
    || (d.currently_landslide && decide (4 ≤ rain_intensity))

/-- `{floods, landslides}` counter pair. -/
structure Counts where
  floods : ℕ
  landslides : ℕ
deriving DecidableEq, Repr

/-- Mutable state of the `simulate_movement` loop. -/
structure WalkState where
  distance : ℚ
  time : ℚ
  visited : List ℕ
  remaining : List ℕ
  enc : Counts
deriving DecidableEq, Repr

/-- Outcome of the movement loop: early `return False` or loop completion. -/
inductive WalkOutcome where
  | fail (st : WalkState) (reason : String)
  | done (st : WalkState)
deriving DecidableEq, Repr

/-- The `while current_path_idx < len(path_sequence) - 1` loop of
`simulate_movement` (lines 142-186), iterating over the consecutive
(u, v) pairs of the path sequence. -/
def walkAux (G : Graph) (rain_intensity : ℤ) (base_speed : ℚ)
    (routeTail : List ℕ) : List (ℕ × ℕ) → WalkState → WalkOutcome
  | [], st => .done st
  | (u, v) :: rest, st =>
    match G.find_edge u v with
    | none => .fail st "Edge no longer exists"
    | some e =>
      if is_edge_blocked e.data rain_intensity then
        .fail st "Encountered blocked road"
      else
        let enc2 : Counts :=
          ⟨st.enc.floods + (if e.data.currently_flooded then 1 else 0),
            st.enc.landslides + (if e.data.currently_landslide then 1 else 0)⟩
        let adjusted_speed := base_speed * rain_speed rain_intensity *
          (if e.data.currently_flooded then (1/2 : ℚ) else 1) *
          (if e.data.currently_landslide then (3/10 : ℚ) else 1)
        if adjusted_speed ≤ 0 then
          .fail ⟨st.distance, st.time, st.visited, st.remaining, enc2⟩
            "Speed dropped to zero"
        else
          walkAux G rain_intensity base_speed routeTail rest
            ⟨st.distance + e.data.length,
              st.time + e.data.length / adjusted_speed,
              (if v ∈ routeTail then st.visited.insert v else st.visited),
              (if v ∈ routeTail then st.remaining.erase v else st.remaining),
              enc2⟩

/-- The six-tuple returned by `simulate_movement`. -/
structure MovementResult where
  success : Bool
  distance : ℚ
  time : ℚ
  deliveries_made : ℕ
  encounters : Counts
  reason : String
deriving DecidableEq, Repr

/-- `simulate_movement` (lines 129-192): walk the path sequence;
`delivery_nodes_set = set(route[1:])`, `remaining = set(delivery_nodes)`;
on completion success iff `remaining` is empty. -/
def simulate_movement (G : Graph) (base_speed : ℚ)
    (delivery_nodes route path_sequence : List ℕ) (rain_intensity : ℤ) :
    MovementResult :=
  let st0 : WalkState := ⟨0, 0, [], delivery_nodes.dedup, ⟨0, 0⟩⟩
  match walkAux G rain_intensity base_speed route.tail
      (path_sequence.zip path_sequence.tail) st0 with
  | .fail st reason => ⟨false, st.distance, st.time, st.visited.length, st.enc, reason⟩
  | .done st =>
    let success := st.remaining.isEmpty
    ⟨success, st.distance, st.time, st.visited.length, st.enc,
      if success then "All deliveries completed" else "Some deliveries missed"⟩

/-- Python values appearing in a trial-result dictionary; `pdict` holds the
nested `disaster_encounters` dictionary of integer counters. -/
inductive PyVal where
  | pbool : Bool → PyVal
  | pint : ℤ → PyVal
  | prat : ℚ → PyVal
  | pstr : String → PyVal
  | pdict : List (String × ℤ) → PyVal
deriving DecidableEq, Repr

/-- `simulate_delivery` (lines 83-124): the no-route dictionary of lines
102-109 verbatim (note it has no `deliveries_made` key and an empty
`disaster_encounters`), else the movement-result dictionary of
lines 116-124. -/
def simulate_delivery (G : Graph) (start_node : ℕ) (delivery_nodes : List ℕ)
    (base_speed : ℚ) (rain_intensity : ℤ) : List (String × PyVal) :=
  match find_disaster_aware_route G start_node delivery_nodes rain_intensity with
  | none =>
    [("success", .pbool false), ("distance", .pint 0), ("time", .pint 0),
      ("reroutes", .pint 0), ("disaster_encounters", .pdict []),
      ("reason", .pstr "No valid route found initially")]
  | some (route, _total, path_sequence) =>
    let r := simulate_movement G base_speed delivery_nodes route path_sequence
      rain_intensity
    [("reroutes", .pint 0), ("success", .pbool r.success),
      ("distance", .prat r.distance), ("time", .prat r.time),
      ("deliveries_made", .pint (r.deliveries_made : ℤ)),
      ("disaster_encounters", .pdict
        [("floods", (r.encounters.floods : ℤ)),
          ("landslides", (r.encounters.landslides : ℤ))]),
      ("reason", .pstr r.reason)]

/-- The `for u, v, data in self.G.edges(data=True)` loop of
`activate_disasters` (lines 63-76): edge i consumes the oracle pair
`o i = (flood draw, landslide draw)`; both transient flags are overwritten
and the activation counters accumulated. -/
def activateAux (flood_threshold landslide_threshold : ℚ) (o : ℕ → ℚ × ℚ) :
    ℕ → List Edge → List Edge × ℕ × ℕ
  | _, [] => ([], 0, 0)
  | i, e :: rest =>
    let fl := decide ((o i).1 < e.data.flood_prone * flood_threshold)
    let ls := decide ((o i).2 < e.data.landslide_prone * landslide_threshold)
    let r := activateAux flood_threshold landslide_threshold o (i+1) rest
    ({ e with data := { e.data with
        currently_flooded := fl
        currently_landslide := ls } } :: r.1,
      (if fl then 1 else 0) + r.2.1, (if ls then 1 else 0) + r.2.2)

/-- `activate_disasters` (lines 43-79): thresholds from the intensity table,
amplified ×1.2 / ×1.3 when `rain_intensity >= 4`, then per-edge sampling. -/
def activate_disasters (G : Graph) (rain_intensity : ℤ) (o : ℕ → ℚ × ℚ) :
    Graph × Counts :=
  let rain_params := rain_intensity_effects rain_intensity
  let flood_threshold :=
    if 4 ≤ rain_intensity then rain_params.flood_activation * (6/5)
    else rain_params.flood_activation
  let landslide_threshold :=
    if 4 ≤ rain_intensity then rain_params.landslide_activation * (13/10)
    else rain_params.landslide_activation
  let r := activateAux flood_threshold landslide_threshold o 0 G.edges
  ({ G with edges := r.1 }, ⟨r.2.1, r.2.2⟩)

/-- A message placed on the multiprocessing result queue by a worker:
the `None` failure marker or a simulation-results object (abstracted to a
number). -/
inductive QueueMsg where
  | failureMarker : QueueMsg
  | result : ℕ → QueueMsg
deriving DecidableEq, Repr

/-- How the body of the `try:` block of `process_worker` ends: both
statements succeed, `run_simulation` raises after `simulation` was bound,
or the `MonteCarloSimulation(...)` construction itself raises. -/
inductive WorkerOutcome where
  | ok : ℕ → WorkerOutcome
  | raiseDuringRun : ℕ → WorkerOutcome
  | raiseDuringConstruction : WorkerOutcome
deriving DecidableEq, Repr

/-- `process_worker` (monte_carlo_organized.py lines 17-45).  The
`except` branch puts the `None` marker; the `main_queue.put(simulation)`
statement sits OUTSIDE the try/except, so it runs afterwards whenever the
local `simulation` is bound, and raises an uncaught NameError (second
component `true`) when construction failed before binding it.  Returns the
queue contents in put order and whether the worker crashed. -/
def process_worker (outcome : WorkerOutcome) : List QueueMsg × Bool :=
  let tryResult : Option ℕ × List QueueMsg :=
    match outcome with
    | .ok sim => (some sim, [])
    | .raiseDuringRun failedSim => (some failedSim, [.failureMarker])
    | .raiseDuringConstruction => (none, [.failureMarker])
  match tryResult.1 with
  | some sim => (tryResult.2 ++ [.result sim], false)
  | none => (tryResult.2, true)

/-- `MonteCarloSimulation` field state (MonteCarlo.py lines 17-48). -/
structure MonteCarloSimulation where
  base_speed : ℚ
  G : Graph
  start_node : ℕ
  delivery_nodes : List ℕ
  ideal_delivery_time : ℚ
deriving DecidableEq, Repr

/-- `MonteCarloSimulation.__init__` (MonteCarlo.py lines 17-48): stores its
arguments and performs no validation of the start node, the delivery
nodes, or emptiness of the delivery set. -/
def MonteCarloSimulation.init (G : Graph) (start_node : ℕ)
    (delivery_nodes : List ℕ) (ideal_delivery_time : ℚ) (base_speed : ℚ) :
    MonteCarloSimulation :=
  ⟨base_speed, G, start_node, delivery_nodes, ideal_delivery_time⟩

/-- Modelled from the spec (§4.2): the sum of the original, unadjusted
`length` attribute over the path's consecutive edges. -/
def spec_original_length_sum (G : Graph) (p : List ℕ) : ℚ :=
  ((p.zip p.tail).map
    (fun uv => (((G.find_edge uv.1 uv.2).map (fun e => e.data.length)).getD 0))).sum

/-- Two edges agreeing on everything except the transient disaster flags. -/
def edge_same_static (e₁ e₂ : Edge) : Prop :=
  e₁.u = e₂.u ∧ e₁.v = e₂.v ∧ e₁.data.length = e₂.data.length ∧
    e₁.data.flood_prone = e₂.data.flood_prone ∧
    e₁.data.landslide_prone = e₂.data.landslide_prone

/-- Two graphs agreeing on everything except the transient disaster flags. -/
def same_static (G₁ G₂ : Graph) : Prop :=
  G₁.nodes = G₂.nodes ∧ List.Forall₂ edge_same_static G₁.edges G₂.edges

/-- Two-node graph A=0, B=1, one edge of length 1000, not disaster-prone,
no active disasters (the §8 baseline scenario). -/
def twoNodeClean : Graph :=
  ⟨[0, 1], [⟨0, 1, ⟨1000, 0, 0, false, false⟩⟩]⟩

/-- Two-node graph whose only edge has `flood_prone = 1.0` and no active
disasters yet (the §8 flooded scenario before activation). -/
def twoNodeProne : Graph :=
  ⟨[0, 1], [⟨0, 1, ⟨1000, 1, 0, false, false⟩⟩]⟩

/-- `twoNodeProne` after flood activation: the edge is currently flooded. -/
def twoNodeFlooded : Graph :=
  ⟨[0, 1], [⟨0, 1, ⟨1000, 1, 0, true, false⟩⟩]⟩

/-- Two nodes and no edges at all: no route can exist. -/
def twoNodeDisconnected : Graph :=
  ⟨[0, 1], []⟩

/-- A single isolated node. -/
def oneNode : Graph :=
  ⟨[0], []⟩

/-- Fixed oracle: flood draw 1/2, landslide draw 0 for every edge. -/
def oracleHalf : ℕ → ℚ × ℚ := fun _ => (1/2, 0)

/-- Fixed oracle: flood draw 0.11, landslide draw 0 for every edge. -/
def oracleElevenHundredths : ℕ → ℚ × ℚ := fun _ => (11/100, 0)

/-! ## Helper lemmas -/

/-- The second components of `ps.zip ps.tail` are exactly `ps.tail`: the
nodes arrived at, in order, by the movement loop. -/
theorem zip_tail_snd (ps : List ℕ) :
    (ps.zip ps.tail).map Prod.snd = ps.tail := by
  induction ps with
  | nil => rfl
  | cons a rest ih =>
    cases rest with
    | nil => rfl
    | cons b rest2 =>
      simpa [List.zip_cons_cons] using ih

/-- The length accumulated by `path_orig_length` is the sum of the original
length attribute over the path's consecutive edges. -/
theorem path_orig_length_sound (G : Graph) :
    ∀ (p : List ℕ) (L : ℚ), path_orig_length G p = some L →
      L = spec_original_length_sum G p := by
  intro p
  induction p with
  | nil =>
    intro L h
    simp only [path_orig_length, Option.some.injEq] at h
    simp [spec_original_length_sum, ← h]
  | cons a rest ih =>
    cases rest with
    | nil =>
      intro L h
      simp only [path_orig_length, Option.some.injEq] at h
      simp [spec_original_length_sum, ← h]
    | cons b rest2 =>
      intro L h
      simp only [path_orig_length] at h
      cases hfe : G.find_edge a b with
      | none => rw [hfe] at h; cases h
      | some e =>
        rw [hfe] at h
        cases hrec : path_orig_length G (b :: rest2) with
        | none => rw [hrec] at h; cases h
        | some L2 =>
          rw [hrec] at h
          simp only [Option.map_some', Option.some.injEq] at h
          have hsum := ih L2 hrec
          simp only [spec_original_length_sum, List.tail_cons,
            List.zip_cons_cons, List.map_cons, List.sum_cons, hfe,
            Option.map_some', Option.getD_some] at hsum ⊢
          rw [← h, hsum]

/-- Characterization of the movement loop upon completion without failure:
the surviving remaining set is what never appeared among the arrived-at
nodes, the visited set is what appeared and lies in `route[1:]`, and both
stay duplicate-free.  Requires every pending delivery node to be a member
of `route[1:]` (as is the case for routes built by the router). -/
theorem walkAux_done_char (G : Graph) (rain : ℤ) (bs : ℚ)
    (routeTail : List ℕ) :
    ∀ (pairs : List (ℕ × ℕ)) (st st2 : WalkState),
      walkAux G rain bs routeTail pairs st = .done st2 →
      st.remaining.Nodup → st.visited.Nodup →
      (∀ x, x ∈ st.remaining → x ∈ routeTail) →
      st2.remaining.Nodup ∧ st2.visited.Nodup ∧
        (∀ x, x ∈ st2.remaining ↔
          x ∈ st.remaining ∧ x ∉ pairs.map Prod.snd) ∧
        (∀ x, x ∈ st2.visited ↔
          x ∈ st.visited ∨ (x ∈ pairs.map Prod.snd ∧ x ∈ routeTail)) := by
  intro pairs
  induction pairs with
  | nil =>
    intro st st2 h hrnd hvnd hsub
    simp only [walkAux, WalkOutcome.done.injEq] at h
    subst h
    refine ⟨hrnd, hvnd, fun x => ?_, fun x => ?_⟩ <;> simp
  | cons uv rest ih =>
    obtain ⟨u, v⟩ := uv
    intro st st2 h hrnd hvnd hsub
    cases hfe : G.find_edge u v with
    | none => simp [walkAux, hfe] at h
    | some e =>
      simp only [walkAux, hfe] at h
      cases hb : is_edge_blocked e.data rain with
      | true => simp only [hb, if_true] at h; cases h
      | false =>
        simp only [hb, Bool.false_eq_true, if_false] at h
        by_cases hsp : bs * rain_speed rain *
            (if e.data.currently_flooded then (1/2 : ℚ) else 1) *
            (if e.data.currently_landslide then (3/10 : ℚ) else 1) ≤ 0
        · rw [if_pos hsp] at h; cases h
        · rw [if_neg hsp] at h
          have hrnd1 : (if v ∈ routeTail then st.remaining.erase v
              else st.remaining).Nodup := by
            by_cases hvr : v ∈ routeTail
            · simpa [hvr] using hrnd.erase v
            · simpa [hvr] using hrnd
          have hvnd1 : (if v ∈ routeTail then st.visited.insert v
              else st.visited).Nodup := by
            by_cases hvr : v ∈ routeTail
            · simpa [hvr] using hvnd.insert
            · simpa [hvr] using hvnd
          have hsub1 : ∀ x, x ∈ (if v ∈ routeTail then st.remaining.erase v
              else st.remaining) → x ∈ routeTail := by
            intro x hx
            by_cases hvr : v ∈ routeTail
            · rw [if_pos hvr] at hx
              exact hsub x (List.mem_of_mem_erase hx)
            · rw [if_neg hvr] at hx
              exact hsub x hx
          obtain ⟨h1, h2, h3, h4⟩ := ih _ st2 h hrnd1 hvnd1 hsub1
          refine ⟨h1, h2, fun x => ?_, fun x => ?_⟩
          · rw [h3 x]
            simp only [List.map_cons, List.mem_cons]
            by_cases hvr : v ∈ routeTail
            · simp only [hvr, if_true, hrnd.mem_erase_iff]
              tauto
            · simp only [hvr, if_false]
              constructor
              · intro hx
                obtain ⟨hxr, hxs⟩ := hx
                refine ⟨hxr, fun hor => ?_⟩
                rcases hor with heq | hmem
                · exact hvr (heq ▸ hsub x hxr)
                · exact hxs hmem
              · intro hx
                obtain ⟨hxr, hxs⟩ := hx
                exact ⟨hxr, fun hmem => hxs (Or.inr hmem)⟩
          · rw [h4 x]
            simp only [List.map_cons, List.mem_cons]
            by_cases hvr : v ∈ routeTail
            · simp only [hvr, if_true, List.mem_insert_iff]
              constructor
              · rintro ((heq | hxv) | ⟨hxs, hxr⟩)
                · exact Or.inr ⟨Or.inl heq, heq ▸ hvr⟩
                · exact Or.inl hxv
                · exact Or.inr ⟨Or.inr hxs, hxr⟩
              · rintro (hxv | ⟨heq | hxs, hxr⟩)
                · exact Or.inl (Or.inr hxv)
                · exact Or.inl (Or.inl heq)
                · exact Or.inr ⟨hxs, hxr⟩
            · simp only [hvr, if_false]
              constructor
              · rintro (hxv | ⟨hxs, hxr⟩)
                · exact Or.inl hxv
                · exact Or.inr ⟨Or.inr hxs, hxr⟩
              · rintro (hxv | ⟨heq | hxs, hxr⟩)
                · exact Or.inl hxv
                · exact absurd (heq ▸ hxr) hvr
                · exact Or.inr ⟨hxs, hxr⟩

/-- The per-edge activation loop produces identical output on two edge
lists agreeing on the static attributes, regardless of the incoming
transient flags, and the output stays statically identical to the input. -/
theorem activateAux_static_congr (ft lt2 : ℚ) (o : ℕ → ℚ × ℚ) :
    ∀ (l₁ l₂ : List Edge), List.Forall₂ edge_same_static l₁ l₂ → ∀ i,
      activateAux ft lt2 o i l₁ = activateAux ft lt2 o i l₂ ∧
        List.Forall₂ edge_same_static (activateAux ft lt2 o i l₁).1 l₁ := by
  intro l₁
  induction l₁ with
  | nil =>
    intro l₂ h i
    cases h
    exact ⟨rfl, List.Forall₂.nil⟩
  | cons e₁ t₁ ih =>
    intro l₂ h i
    cases h with
    | cons he ht =>
      rename_i e₂ t₂
      obtain ⟨hu, hv, hl, hf, hs⟩ := he
      obtain ⟨hrec_eq, hrec_f2⟩ := ih t₂ ht (i+1)
      constructor
      · simp only [activateAux, hf, hs, hrec_eq]
        obtain ⟨u₁, v₁, len₁, fp₁, lp₁, cf₁, cl₁⟩ := e₁
        obtain ⟨u₂, v₂, len₂, fp₂, lp₂, cf₂, cl₂⟩ := e₂
        simp only at hu hv hl hf hs
        rw [hu, hv, hl]
      · exact List.Forall₂.cons ⟨rfl, rfl, rfl, rfl, rfl⟩ hrec_f2

/-! ## Claim theorems -/

/-- Claim C1 (code evaluation at the failing input): at `rain_intensity = 5`
on a graph whose only source→target path is the single currently-flooded
edge A→B, `find_danger_aware_shortest_path` does NOT return `(none, +∞)`:
it returns the flooded path `[A, B]` with its original length 1000, because
the Dijkstra backend treats the infinite adjusted weight as an ordinary
number rather than an absent edge.  This refutes the claim that a path
containing a flooded edge is never returned at rain ≥ 5. -/
theorem pathfinder_returns_flooded_path_at_extreme_rain :
    find_danger_aware_shortest_path twoNodeFlooded 0 1 5 =
        (some [0, 1], some 1000) ∧
      (twoNodeFlooded.find_edge 0 1).map (fun e => e.data.currently_flooded) =
        some true := by
  constructor
  · norm_num [find_danger_aware_shortest_path, simplePaths, twoNodeFlooded,
      simplePathsAux, Graph.succ, Graph.find_edge, selectBest,
      path_adjusted_weight, path_orig_length, adjusted_weight, ewAdd, ewLt,
      rain_speed, rain_intensity_effects, List.find?, List.filter,
      List.foldl, List.flatMap]
  · norm_num [twoNodeFlooded, Graph.find_edge, List.find?]

/-- Claim C2 (code evaluation at the failing input): on the two-node graph
with `flood_prone = 1.0` at `rain_intensity = 5`, `activate_disasters`
does always flood the edge (any draw in [0,1) is below the 1.2 threshold),
but the subsequent trial does NOT report "No valid route found initially":
the pathfinder still returns the flooded path (see C1), movement starts
and hits the blocked road, so the trial reports success = false with
reason "Encountered blocked road". -/
theorem flooded_scenario_trial_reports_blocked_road :
    (activate_disasters twoNodeProne 5 oracleHalf).1 = twoNodeFlooded ∧
      (simulate_delivery twoNodeFlooded 0 [1] 500 5).lookup "success" =
        some (.pbool false) ∧
      (simulate_delivery twoNodeFlooded 0 [1] 500 5).lookup "reason" =
        some (.pstr "Encountered blocked road") := by
  refine ⟨?_, ?_, ?_⟩
  · norm_num [activate_disasters, activateAux, twoNodeProne, twoNodeFlooded,
      oracleHalf, rain_intensity_effects]
  all_goals
    have h : simulate_delivery twoNodeFlooded 0 [1] 500 5 =
        [("reroutes", .pint 0), ("success", .pbool false),
          ("distance", .prat 0), ("time", .prat 0),
          ("deliveries_made", .pint 0),
          ("disaster_encounters", .pdict [("floods", 0), ("landslides", 0)]),
          ("reason", .pstr "Encountered blocked road")] := by
      norm_num [simulate_delivery, find_disaster_aware_route, routeLoop,
        selectNearest, find_danger_aware_shortest_path, simplePaths,
        simplePathsAux, Graph.succ, Graph.find_edge, selectBest,
        path_adjusted_weight, path_orig_length, adjusted_weight, ewAdd, ewLt,
        rain_speed, rain_intensity_effects, simulate_movement, walkAux,
        is_edge_blocked, twoNodeFlooded, List.find?, List.filter, List.foldl,
        List.flatMap]
    rw [h]
    simp [List.lookup]

/-- Claim C3 (code evaluation at the failing input): when the orchestrator
run raises after the simulation object was constructed, the worker puts the
`None` failure marker AND then, because `main_queue.put(simulation)` sits
outside the try/except, also the partial simulation object — two messages
on the channel, refuting "the marker instead of a result, never both".
(When construction itself raises, only the marker is put and the worker
then crashes on an uncaught NameError.) -/
theorem worker_error_after_construction_puts_marker_and_result
    (failedSim : ℕ) :
    process_worker (.raiseDuringRun failedSim) =
        ([.failureMarker, .result failedSim], false) ∧
      process_worker .raiseDuringConstruction = ([.failureMarker], true) :=
  ⟨rfl, rfl⟩

/-- Claim C5 (code evaluation at the failing input): constructing the
orchestrator with an empty delivery set succeeds — `__init__` stores its
arguments and validates nothing — and the trial then runs and reports
success = true with reason "All deliveries completed", refuting the claim
that construction fails eagerly before any trial. -/
theorem empty_delivery_set_trial_succeeds_without_validation :
    MonteCarloSimulation.init oneNode 0 [] 5 500 =
        ⟨500, oneNode, 0, [], 5⟩ ∧
      (simulate_delivery oneNode 0 [] 500 1).lookup "success" =
        some (.pbool true) ∧
      (simulate_delivery oneNode 0 [] 500 1).lookup "reason" =
        some (.pstr "All deliveries completed") := by
  refine ⟨rfl, ?_, ?_⟩
  all_goals
    have h : simulate_delivery oneNode 0 [] 500 1 =
        [("reroutes", .pint 0), ("success", .pbool true),
          ("distance", .prat 0), ("time", .prat 0),
          ("deliveries_made", .pint 0),
          ("disaster_encounters", .pdict [("floods", 0), ("landslides", 0)]),
          ("reason", .pstr "All deliveries completed")] := by
      norm_num [simulate_delivery, find_disaster_aware_route, routeLoop,
        simulate_movement, walkAux, oneNode, List.dedup]
    rw [h]
    simp [List.lookup]

/-- Claim C4, counterexample: the no-route trial record (two nodes, no
edges, delivery node unreachable) has NO `deliveries_made` key at all, and
its `disaster_encounters` is the empty dictionary rather than a
floods/landslides pair — the claim that every record carries all
TrialResult fields is false. -/
theorem no_route_result_lacks_deliveries_made :
    (simulate_delivery twoNodeDisconnected 0 [1] 500 1).lookup
        "deliveries_made" = none ∧
      (simulate_delivery twoNodeDisconnected 0 [1] 500 1).lookup
        "disaster_encounters" = some (.pdict []) ∧
      (simulate_delivery twoNodeDisconnected 0 [1] 500 1).lookup "success" =
        some (.pbool false) := by
  have h : simulate_delivery twoNodeDisconnected 0 [1] 500 1 =
      [("success", .pbool false), ("distance", .pint 0), ("time", .pint 0),
        ("reroutes", .pint 0), ("disaster_encounters", .pdict []),
        ("reason", .pstr "No valid route found initially")] := by
    norm_num [simulate_delivery, find_disaster_aware_route, routeLoop,
      selectNearest, find_danger_aware_shortest_path, simplePaths,
      simplePathsAux, Graph.succ, Graph.find_edge, selectBest,
      path_adjusted_weight, path_orig_length, adjusted_weight, ewAdd, ewLt,
      rain_speed, rain_intensity_effects, twoNodeDisconnected, List.find?,
      List.filter, List.foldl, List.flatMap]
  rw [h]
  refine ⟨?_, ?_, ?_⟩ <;> simp [List.lookup]

/-- Claim C4, amended: the no-route record carries exactly success=false,
distance=0, time=0, reroutes, an EMPTY disaster_encounters and the reason
string (no `deliveries_made` key); whenever route construction succeeds,
the packaged movement record carries every TrialResult field, with
`deliveries_made` a nonnegative integer and `disaster_encounters` holding
both a floods and a landslides count. -/
theorem trial_result_schema_by_case :
    (simulate_delivery twoNodeDisconnected 0 [1] 500 1 =
        [("success", .pbool false), ("distance", .pint 0), ("time", .pint 0),
          ("reroutes", .pint 0), ("disaster_encounters", .pdict []),
          ("reason", .pstr "No valid route found initially")]) ∧
      (∀ (G : Graph) (start : ℕ) (delivery : List ℕ) (bs : ℚ) (rain : ℤ)
          (route : List ℕ) (total : ℚ) (ps : List ℕ),
        find_disaster_aware_route G start delivery rain =
            some (route, total, ps) →
        ∃ (b : Bool) (dq tq : ℚ) (n fc lc : ℕ) (s : String),
          (simulate_delivery G start delivery bs rain).lookup "success" =
              some (.pbool b) ∧
            (simulate_delivery G start delivery bs rain).lookup "distance" =
              some (.prat dq) ∧
            (simulate_delivery G start delivery bs rain).lookup "time" =
              some (.prat tq) ∧
            (simulate_delivery G start delivery bs rain).lookup "reroutes" =
              some (.pint 0) ∧
            (simulate_delivery G start delivery bs rain).lookup
              "deliveries_made" = some (.pint (n : ℤ)) ∧ 0 ≤ (n : ℤ) ∧
            (simulate_delivery G start delivery bs rain).lookup
              "disaster_encounters" =
              some (.pdict [("floods", (fc : ℤ)), ("landslides", (lc : ℤ))]) ∧
            (simulate_delivery G start delivery bs rain).lookup "reason" =
              some (.pstr s)) := by
  constructor
  · norm_num [simulate_delivery, find_disaster_aware_route, routeLoop,
      selectNearest, find_danger_aware_shortest_path, simplePaths,
      simplePathsAux, Graph.succ, Graph.find_edge, selectBest,
      path_adjusted_weight, path_orig_length, adjusted_weight, ewAdd, ewLt,
      rain_speed, rain_intensity_effects, twoNodeDisconnected, List.find?,
      List.filter, List.foldl, List.flatMap]
  · intro G start delivery bs rain route total ps h
    refine ⟨(simulate_movement G bs delivery route ps rain).success,
      (simulate_movement G bs delivery route ps rain).distance,
      (simulate_movement G bs delivery route ps rain).time,
      (simulate_movement G bs delivery route ps rain).deliveries_made,
      (simulate_movement G bs delivery route ps rain).encounters.floods,
      (simulate_movement G bs delivery route ps rain).encounters.landslides,
      (simulate_movement G bs delivery route ps rain).reason,
      ?_, ?_, ?_, ?_, ?_, Int.natCast_nonneg _, ?_, ?_⟩ <;>
    simp [simulate_delivery, h, List.lookup]

/-- Claim C4, witness for the amended theorem: on the clean two-node graph
the route exists and the packaged record carries every field. -/
theorem trial_result_schema_witness :
    find_disaster_aware_route twoNodeClean 0 [1] 1 =
        some ([0, 1], 1000, [0, 1]) ∧
      (∃ (b : Bool) (dq tq : ℚ) (n fc lc : ℕ) (s : String),
        (simulate_delivery twoNodeClean 0 [1] 500 1).lookup "success" =
            some (.pbool b) ∧
          (simulate_delivery twoNodeClean 0 [1] 500 1).lookup "distance" =
            some (.prat dq) ∧
          (simulate_delivery twoNodeClean 0 [1] 500 1).lookup "time" =
            some (.prat tq) ∧
          (simulate_delivery twoNodeClean 0 [1] 500 1).lookup "reroutes" =
            some (.pint 0) ∧
          (simulate_delivery twoNodeClean 0 [1] 500 1).lookup
            "deliveries_made" = some (.pint (n : ℤ)) ∧ 0 ≤ (n : ℤ) ∧
          (simulate_delivery twoNodeClean 0 [1] 500 1).lookup
            "disaster_encounters" =
            some (.pdict [("floods", (fc : ℤ)), ("landslides", (lc : ℤ))]) ∧
          (simulate_delivery twoNodeClean 0 [1] 500 1).lookup "reason" =
            some (.pstr s)) := by
  have h : find_disaster_aware_route twoNodeClean 0 [1] 1 =
      some ([0, 1], 1000, [0, 1]) := by
    norm_num [find_disaster_aware_route, routeLoop, selectNearest,
      find_danger_aware_shortest_path, simplePaths, simplePathsAux,
      Graph.succ, Graph.find_edge, selectBest, path_adjusted_weight,
      path_orig_length, adjusted_weight, ewAdd, ewLt, rain_speed,
      rain_intensity_effects, twoNodeClean, List.find?, List.filter,
      List.foldl, List.flatMap]
  exact ⟨h, trial_result_schema_by_case.2 twoNodeClean 0 [1] 500 1
    [0, 1] 1000 [0, 1] h⟩

/-- Claim C6, counterexample: at the invalid intensity 6 the ≥4 storm
amplification still applies to the level-1 fallback parameters, so the
draw 0.11 floods a fully flood-prone edge (0.11 < 0.10 × 1.2) while the
same draw at intensity 1 does not (0.11 ≥ 0.10): activate_disasters does
NOT behave exactly as at level 1 for every invalid intensity. -/
theorem invalid_intensity_six_differs_from_level_one :
    ((activate_disasters twoNodeProne 6 oracleElevenHundredths).1.edges.map
        (fun e => e.data.currently_flooded) = [true]) ∧
      ((activate_disasters twoNodeProne 1 oracleElevenHundredths).1.edges.map
        (fun e => e.data.currently_flooded) = [false]) := by
  constructor <;>
    norm_num [activate_disasters, activateAux, twoNodeProne,
      oracleElevenHundredths, rain_intensity_effects]

/-- Claim C6, amended: for every invalid rain intensity the parameter row
falls back to level 1 and nothing errors, and for invalid intensities
BELOW 4 (where the storm amplification branch cannot fire)
activate_disasters behaves exactly as at rain_intensity = 1. -/
theorem invalid_intensity_fallback_behavior (rain : ℤ)
    (h : rain ∉ ([1, 2, 3, 4, 5] : List ℤ)) :
    rain_intensity_effects rain = rain_intensity_effects 1 ∧
      (rain < 4 → ∀ (G : Graph) (o : ℕ → ℚ × ℚ),
        activate_disasters G rain o = activate_disasters G 1 o) := by
  simp only [List.mem_cons, List.not_mem_nil, or_false, not_or] at h
  obtain ⟨h1, h2, h3, h4, h5⟩ := h
  have hre : rain_intensity_effects rain = rain_intensity_effects 1 := by
    rw [rain_intensity_effects, rain_intensity_effects]
    rw [if_neg h1, if_neg h2, if_neg h3, if_neg h4, if_neg h5, if_pos rfl]
  refine ⟨hre, fun hlt G o => ?_⟩
  have ha : ¬(4 ≤ rain) := by omega
  have hb : ¬(4 ≤ (1 : ℤ)) := by omega
  simp only [activate_disasters, hre, if_neg ha, if_neg hb]

/-- Claim C6, witness: intensity 0 is invalid and below 4, so the fallback
and the level-1 behaviour both apply there. -/
theorem invalid_intensity_fallback_witness :
    ((0 : ℤ) ∉ ([1, 2, 3, 4, 5] : List ℤ)) ∧
      rain_intensity_effects 0 = rain_intensity_effects 1 ∧
      activate_disasters twoNodeProne 0 oracleHalf =
        activate_disasters twoNodeProne 1 oracleHalf := by
  have h0 : (0 : ℤ) ∉ ([1, 2, 3, 4, 5] : List ℤ) := by decide
  obtain ⟨ha, hb⟩ := invalid_intensity_fallback_behavior 0 h0
  exact ⟨h0, ha, hb (by decide) twoNodeProne oracleHalf⟩

/-- Claim C8: whenever `find_danger_aware_shortest_path` returns a path,
the returned length is the sum of the original, unadjusted `length`
attribute over the path's consecutive edges, never the adjusted cost. -/
theorem returned_length_is_original_length_sum (G : Graph)
    (s t : ℕ) (rain : ℤ) (p : List ℕ) (L : ℚ)
    (h : find_danger_aware_shortest_path G s t rain = (some p, some L)) :
    L = spec_original_length_sum G p := by
  rw [find_danger_aware_shortest_path] at h
  by_cases hmem : s ∈ G.nodes ∧ t ∈ G.nodes
  · rw [if_pos hmem] at h
    cases hsb : selectBest G rain (simplePaths G s t) with
    | none => simp only [hsb] at h; simp at h
    | some q =>
      simp only [hsb] at h
      cases hpl : path_orig_length G q with
      | none => simp only [hpl] at h; simp at h
      | some L2 =>
        simp only [hpl, Prod.mk.injEq, Option.some.injEq] at h
        obtain ⟨hq, hL⟩ := h
        subst hq
        rw [← hL]
        exact path_orig_length_sound G q L2 hpl
  · rw [if_neg hmem] at h
    simp at h

/-- Claim C8, witness: on the clean two-node graph the returned length
1000 is the original length sum of the returned path. -/
theorem returned_length_witness :
    find_danger_aware_shortest_path twoNodeClean 0 1 1 =
        (some [0, 1], some 1000) ∧
      (1000 : ℚ) = spec_original_length_sum twoNodeClean [0, 1] := by
  have h : find_danger_aware_shortest_path twoNodeClean 0 1 1 =
      (some [0, 1], some 1000) := by
    norm_num [find_danger_aware_shortest_path, simplePaths, twoNodeClean,
      simplePathsAux, Graph.succ, Graph.find_edge, selectBest,
      path_adjusted_weight, path_orig_length, adjusted_weight, ewAdd, ewLt,
      rain_speed, rain_intensity_effects, List.find?, List.filter,
      List.foldl, List.flatMap]
  exact ⟨h, returned_length_is_original_length_sum twoNodeClean 0 1 1
    [0, 1] 1000 h⟩

/-- Claim C9: `activate_disasters` rewrites both transient flags of every
edge from the oracle draws and the static attributes alone — two graphs
differing only in their incoming transient flags produce identical output
(flags never leak from a previous trial) — and it modifies nothing except
those flags (the output is statically identical to the input). -/
theorem activate_overwrites_flags_independent_of_previous (rain : ℤ)
    (o : ℕ → ℚ × ℚ) (G₁ G₂ : Graph) (h : same_static G₁ G₂) :
    activate_disasters G₁ rain o = activate_disasters G₂ rain o ∧
      same_static (activate_disasters G₁ rain o).1 G₁ := by
  obtain ⟨hn, he⟩ := h
  obtain ⟨heq, hf2⟩ := activateAux_static_congr
    (if 4 ≤ rain then (rain_intensity_effects rain).flood_activation * (6/5)
      else (rain_intensity_effects rain).flood_activation)
    (if 4 ≤ rain then
        (rain_intensity_effects rain).landslide_activation * (13/10)
      else (rain_intensity_effects rain).landslide_activation)
    o G₁.edges G₂.edges he 0
  constructor
  · simp only [activate_disasters, heq, hn]
  · exact ⟨rfl, hf2⟩

/-- Claim C9, witness: the flood-prone two-node graph with clean flags and
the same graph with its edge already flooded are statically identical, so
activation treats them identically and preserves the statics. -/
theorem activate_overwrites_flags_witness :
    same_static twoNodeProne twoNodeFlooded ∧
      activate_disasters twoNodeProne 3 oracleHalf =
        activate_disasters twoNodeFlooded 3 oracleHalf ∧
      same_static (activate_disasters twoNodeProne 3 oracleHalf).1
        twoNodeProne := by
  have hs : same_static twoNodeProne twoNodeFlooded :=
    ⟨rfl, List.Forall₂.cons ⟨rfl, rfl, rfl, rfl, rfl⟩ List.Forall₂.nil⟩
  obtain ⟨h1, h2⟩ := activate_overwrites_flags_independent_of_previous 3
    oracleHalf twoNodeProne twoNodeFlooded hs
  exact ⟨hs, h1, h2⟩

/-- Claim C10: for every node s of the graph and every rain intensity,
the pathfinder on (s, s) returns the single-node path [s] with length 0. -/
theorem same_source_target_single_node_path (G : Graph) (s : ℕ)
    (rain : ℤ) (hs : s ∈ G.nodes) :
    find_danger_aware_shortest_path G s s rain = (some [s], some 0) := by
  obtain ⟨n, hn⟩ : ∃ n, G.nodes.length = n + 1 := by
    cases hlen : G.nodes.length with
    | zero =>
      rw [List.length_eq_zero] at hlen
      rw [hlen] at hs
      cases hs
    | succ n => exact ⟨n, rfl⟩
  rw [find_danger_aware_shortest_path, if_pos ⟨hs, hs⟩, simplePaths, hn]
  simp [simplePathsAux, selectBest, path_orig_length, List.foldl]

/-- Claim C10, witness: node 0 of the clean two-node graph. -/
theorem same_source_target_witness :
    (0 ∈ twoNodeClean.nodes) ∧
      find_danger_aware_shortest_path twoNodeClean 0 0 3 =
        (some [0], some 0) :=
  ⟨by simp [twoNodeClean],
    same_source_target_single_node_path twoNodeClean 0 3
      (by simp [twoNodeClean])⟩

/-- Claim C7: when the movement loop completes the full path without a
failure (and the route tail consists exactly of the delivery nodes, as the
router guarantees, with no duplicate delivery nodes): success holds iff
every delivery node was visited along the walk; a successful result has
`deliveries_made` equal to the number of delivery nodes; and a result with
fewer deliveries than delivery nodes is not successful. -/
theorem movement_success_iff_all_deliveries_visited (G : Graph) (bs : ℚ)
    (delivery_nodes route ps : List ℕ) (rain : ℤ)
    (hnd : delivery_nodes.Nodup)
    (hroute : ∀ x, x ∈ route.tail ↔ x ∈ delivery_nodes)
    (hdone : ∃ st, walkAux G rain bs route.tail (ps.zip ps.tail)
        ⟨0, 0, [], delivery_nodes.dedup, ⟨0, 0⟩⟩ = .done st) :
    ((simulate_movement G bs delivery_nodes route ps rain).success = true ↔
        ∀ d ∈ delivery_nodes, d ∈ ps.tail) ∧
      ((simulate_movement G bs delivery_nodes route ps rain).success = true →
        (simulate_movement G bs delivery_nodes route ps rain).deliveries_made
          = delivery_nodes.length) ∧
      ((simulate_movement G bs delivery_nodes route ps rain).deliveries_made
          < delivery_nodes.length →
        (simulate_movement G bs delivery_nodes route ps rain).success
          = false) := by
  obtain ⟨st, hw⟩ := hdone
  obtain ⟨hrnd, hvnd, hrem, hvis⟩ := walkAux_done_char G rain bs route.tail
    (ps.zip ps.tail) ⟨0, 0, [], delivery_nodes.dedup, ⟨0, 0⟩⟩ st hw
    (List.nodup_dedup _) List.nodup_nil
    (fun x hx => (hroute x).2 (List.mem_dedup.1 hx))
  simp only [zip_tail_snd] at hrem hvis
  simp only [List.mem_dedup, List.not_mem_nil, false_or] at hrem hvis
  have hres : simulate_movement G bs delivery_nodes route ps rain =
      ⟨st.remaining.isEmpty, st.distance, st.time, st.visited.length, st.enc,
        if st.remaining.isEmpty then "All deliveries completed"
        else "Some deliveries missed"⟩ := by
    simp only [simulate_movement, hw]
  have hsucc_iff : st.remaining.isEmpty = true ↔
      ∀ d ∈ delivery_nodes, d ∈ ps.tail := by
    rw [List.isEmpty_iff, List.eq_nil_iff_forall_not_mem]
    constructor
    · intro hall d hd
      by_contra hnp
      exact hall d ((hrem d).2 ⟨hd, hnp⟩)
    · intro hall x hx
      obtain ⟨hxd, hxnp⟩ := (hrem x).1 hx
      exact hxnp (hall x hxd)
  have hlen : st.remaining.isEmpty = true →
      st.visited.length = delivery_nodes.length := by
    intro hsucc
    have hall := hsucc_iff.1 hsucc
    have hmemiff : ∀ x, x ∈ st.visited ↔ x ∈ delivery_nodes := by
      intro x
      rw [hvis x]
      constructor
      · intro hx
        exact (hroute x).1 hx.2
      · intro hd
        exact ⟨hall x hd, (hroute x).2 hd⟩
    exact ((List.perm_ext_iff_of_nodup hvnd hnd).2 hmemiff).length_eq
  refine ⟨?_, ?_, ?_⟩
  · simp only [hres]
    exact hsucc_iff
  · intro hsucc
    simp only [hres] at hsucc ⊢
    exact hlen hsucc
  · intro hlt
    simp only [hres] at hlt ⊢
    cases hie : st.remaining.isEmpty with
    | false => rfl
    | true => exact ((Nat.lt_irrefl _ ((hlen hie) ▸ hlt)).elim)

/-- Claim C7, witness: clean two-node graph, route [0, 1], delivery set
{1}: movement completes, succeeds and counts one delivery. -/
theorem movement_success_witness :
    (((simulate_movement twoNodeClean 500 [1] [0, 1] [0, 1] 1).success
          = true) ↔
        ∀ d ∈ ([1] : List ℕ), d ∈ ([0, 1] : List ℕ).tail) ∧
      (((simulate_movement twoNodeClean 500 [1] [0, 1] [0, 1] 1).success
            = true) →
        (simulate_movement twoNodeClean 500 [1] [0, 1] [0, 1]
          1).deliveries_made = ([1] : List ℕ).length) ∧
      (((simulate_movement twoNodeClean 500 [1] [0, 1] [0, 1]
            1).deliveries_made < ([1] : List ℕ).length) →
        (simulate_movement twoNodeClean 500 [1] [0, 1] [0, 1] 1).success
          = false) := by
  have hdone : ∃ st, walkAux twoNodeClean 1 500 ([0, 1] : List ℕ).tail
      ((([0, 1] : List ℕ)).zip (([0, 1] : List ℕ)).tail)
      ⟨0, 0, [], ([1] : List ℕ).dedup, ⟨0, 0⟩⟩ = .done st := by
    refine ⟨⟨1000, 2, [1], [], ⟨0, 0⟩⟩, ?_⟩
    norm_num [walkAux, is_edge_blocked, rain_speed, rain_intensity_effects,
      twoNodeClean, Graph.find_edge, List.find?, List.dedup, List.insert,
      List.erase]
  exact movement_success_iff_all_deliveries_visited twoNodeClean 500 [1]
    [0, 1] [0, 1] 1 (by simp) (fun x => Iff.rfl) hdone
